import Mathlib

/-!
Verification of the prima.cpp server scheduler core (examples/server/server.cpp)
against its natural-language specification.

The development shallowly embeds the data model and the operations of the
request scheduler: the task queue (`server_queue`), the result queue
(`server_response`), the slot record (`server_slot`) and the slot-mutating
phases of `server_context::update_slots` and `server_context::process_token`.
C++ `int32_t` / `int64_t` fields are modelled as `Int` (no arithmetic here
comes near the width bounds), token vectors as `List Int`, and the C++
member-function mutation style as functions from records to records.
-/

namespace PrimaServer

/-- Slot states, mirroring `enum slot_state` (server.cpp lines 70-75). -/
inductive SlotState
  | idle
  | processingPrompt
  | donePrompt
  | generating
deriving DecidableEq, Repr

/-- The subset of `struct slot_params` (server.cpp lines 128-144) that the
scheduler core reads: streaming flag, prompt-cache flag, `n_keep`,
`n_discard`, `n_predict`.  Sampler, antiprompt and speculative sub-fields are
owned by external collaborators and are not needed by any claim. -/
structure SlotParams where
  stream       : Bool := true
  cache_prompt : Bool := true
  n_keep       : Int  := 0
  n_discard    : Int  := 0
  n_predict    : Int  := -1
deriving DecidableEq, Repr

/-- The scheduler-visible fields of `struct server_slot`
(server.cpp lines 145-220), with the member initializers of the C++ struct
as default values. -/
structure ServerSlot where
  id              : Int := 0
  id_task         : Int := -1
  index           : Int := 0
  params          : SlotParams := {}
  state           : SlotState := SlotState.idle
  t_last_used     : Int := -1
  n_ctx           : Int := 0
  n_past          : Int := 0
  n_decoded       : Int := 0
  n_remaining     : Int := -1
  i_batch         : Int := -1
  n_predict       : Int := -1
  n_prompt_tokens : Int := 0
  prompt_tokens   : List Int := []
  cache_tokens    : List Int := []
  sampled         : Int := 0
  has_next_token  : Bool := true
  truncated       : Bool := false
  stopped_eos     : Bool := false
  stopped_limit   : Bool := false
  stopped_word    : Bool := false
  ga_i            : Int := 0
  ga_n            : Int := 1
  ga_w            : Int := 512
  n_past_se       : Int := 0
deriving DecidableEq, Repr

/-- Mirrors `server_slot::is_processing` (server.cpp lines 260-262). -/
def ServerSlot.is_processing (s : ServerSlot) : Bool :=
  s.state ≠ SlotState.idle

/-- Mirrors `server_slot::reset` (server.cpp lines 223-242): clears the per-request
generation state.  Note that it touches neither `id_task`, nor `state`, nor
`cache_tokens`, nor `n_decoded`, nor `t_last_used`. -/
def ServerSlot.reset (s : ServerSlot) : ServerSlot :=
  { s with
    n_prompt_tokens := 0
    truncated       := false
    stopped_eos     := false
    stopped_limit   := false
    stopped_word    := false
    n_past          := 0
    ga_i            := 0
    n_past_se       := 0 }

/-- Mirrors `server_slot::release` (server.cpp lines 276-284): if the slot is
processing, it returns to `IDLE`.  The function does not write `id_task`,
which keeps the id of the finished task. -/
def ServerSlot.release (s : ServerSlot) : ServerSlot :=
  if s.is_processing then { s with state := SlotState.idle } else s

end PrimaServer

namespace PrimaServer

/-! ## Task queue (`struct server_queue`, server.cpp lines 398-540) -/

/-- Mirrors `enum server_task_type` (server.cpp lines 78-87). -/
inductive STaskType
  | completion
  | cancel
  | next_response
  | metrics
  | slot_save
  | slot_restore
  | slot_erase
  | set_lora
deriving DecidableEq, Repr

/-- The queue-visible fields of `struct server_task` (server.cpp
lines 100-117). -/
structure STask where
  id        : Int := -1
  id_target : Int := -1
  ttype     : STaskType := STaskType.completion
deriving DecidableEq, Repr

/-- The state of `struct server_queue`: the monotonic id counter, the main
deque (head = front, i.e. the next task to be dequeued by `start_loop`) and
the deferred deque. -/
structure ServerQueue where
  next_id  : Int := 0
  tasks    : List STask := []
  deferred : List STask := []
deriving DecidableEq, Repr

/-- Mirrors the `server_queue::post` single-task overload (server.cpp lines 413-427):
assign an id if the task has none, then `push_front` or `push_back`. -/
def server_queue_post (q : ServerQueue) (t0 : STask) (front : Bool) :
    ServerQueue :=
  let assigned := t0.id = -1
  let t := if assigned then { t0 with id := q.next_id } else t0
  { q with
    next_id := if assigned then q.next_id + 1 else q.next_id
    tasks   := if front then t :: q.tasks else q.tasks ++ [t] }

/-- Mirrors the `server_queue::post` vector overload (server.cpp lines 429-445): the
single-task body applied to each task of the vector in input order, under one
lock acquisition. -/
def server_queue_post_many (q : ServerQueue) (ts : List STask) (front : Bool) :
    ServerQueue :=
  ts.foldl (fun acc t => server_queue_post acc t front) q

/-- The id-assignment pass of the vector overload in isolation: returns the
tasks with fresh ids filled in, and the advanced counter. -/
def assign_task_ids (next : Int) : List STask → List STask × Int
  | [] => ([], next)
  | t :: ts =>
      if t.id = -1 then
        let r := assign_task_ids (next + 1) ts
        ({ t with id := next } :: r.1, r.2)
      else
        let r := assign_task_ids next ts
        (t :: r.1, r.2)

/-- Mirrors `server_queue::defer` (server.cpp lines 447-453). -/
def server_queue_defer (q : ServerQueue) (t : STask) : ServerQueue :=
  { q with deferred := q.deferred ++ [t] }

/-- Mirrors `server_queue::pop_deferred_task` (server.cpp lines 472-480). -/
def server_queue_pop_deferred (q : ServerQueue) : ServerQueue :=
  match q.deferred with
  | [] => q
  | t :: rest => { q with deferred := rest, tasks := q.tasks ++ [t] }

/-! ## Server initialization (`server_context::load_model` and
`server_context::init`, server.cpp lines 696-792) -/

/-- In `load_model`, `params.n_parallel += 1` (line 702, dedicating one sequence
to the system prompt) is in force while the llama context is created, so this
is the sequence count of the shared KV cache. -/
def server_seq_count (n_parallel : Nat) : Nat := n_parallel + 1

/-- In `load_model`, `params.n_parallel -= 1` (line 744, "but be sneaky about
it") restores the configured slot count before `init` runs. -/
def server_restored_n_parallel (n_parallel : Nat) : Nat :=
  server_seq_count n_parallel - 1

/-- Mirrors `server_context::init` (line 784): `n_ctx_slot = n_ctx / params.n_parallel`,
evaluated after `load_model` has restored `n_parallel`. -/
def server_init_n_ctx_slot (n_ctx n_parallel : Nat) : Nat :=
  n_ctx / server_restored_n_parallel n_parallel

/-! ## Result queue (`struct server_response`, server.cpp lines 542-624) -/

/-- Mirrors `struct server_task_result` (server.cpp lines 119-126).  The json payload
is abstracted to the one key the scheduler itself writes and the claims read:
`cancelled` (set by `server_context::cancel_tasks`). -/
structure SResult where
  id        : Int := -1
  stop      : Bool := false
  error     : Bool := false
  cancelled : Bool := false
deriving DecidableEq, Repr

/-- The state of `struct server_response`: the waiter registrations
(`waiting_task_ids`, an unordered set modelled as a list considered up to
membership) and the result list (`queue_results`, in send order). -/
structure ServerResponse where
  waiting : List Int := []
  results : List SResult := []
deriving DecidableEq, Repr

/-- Mirrors `server_response::remove_waiting_task_id` (server.cpp lines 566-571). -/
def server_response_remove_waiting (r : ServerResponse) (tid : Int) :
    ServerResponse :=
  { r with waiting := r.waiting.filter (fun x => x ≠ tid) }

/-- Mirrors `server_response::send` (server.cpp lines 609-622): the result is appended
to `queue_results` only when some registered waiter matches its id; otherwise
the function returns without storing it, silently discarding the result. -/
def server_response_send (r : ServerResponse) (res : SResult) : ServerResponse :=
  if res.id ∈ r.waiting then { r with results := r.results ++ [res] }
  else r

/-- The synthetic cancellation acknowledgement built by
`server_context::cancel_tasks` (server.cpp lines 1659-1665):
`stop = true`, `error = false`, payload `cancelled = true`. -/
def cancel_ack (tid : Int) : SResult :=
  { id := tid, stop := true, error := false, cancelled := true }

/-- The per-id body of `server_context::cancel_tasks` (server.cpp
lines 1651-1671) restricted to the result queue: first `send` the synthetic
acknowledgement, then `remove_waiting_task_id`.  (The function also posts a
`CANCEL` task to the front of the task queue; that part only touches the task
queue.) -/
def server_cancel_task (r : ServerResponse) (tid : Int) : ServerResponse :=
  server_response_remove_waiting (server_response_send r (cancel_ack tid)) tid

/-! ## Slot cache / n_past operations (from `server_context::update_slots`
and the admin task handlers of `server_context::process_single_task`) -/

/-- Modelled from the spec: `common_part` is defined in the server utils
header of the repository, which is not under src/.  Per spec sections 4.3 and
4.6.6 it returns the length of the longest common prefix of its two token
sequences. -/
def common_part : List Int → List Int → Nat
  | a :: as, b :: bs => if a = b then common_part as bs + 1 else 0
  | _, _ => 0

/-- The generation walk of `update_slots` (server.cpp lines 2075-2097), per
slot in state `GENERATING`: the last sampled token is added to the batch,
`n_past` is incremented, and the token is pushed to `cache_tokens` when
`cache_prompt` is set. -/
def ServerSlot.gen_append (s : ServerSlot) (tok : Int) : ServerSlot :=
  { s with
    sampled      := tok
    n_past       := s.n_past + 1
    cache_tokens := if s.params.cache_prompt then s.cache_tokens ++ [tok]
                    else s.cache_tokens }

/-- The in-place token slide plus `resize` applied to `cache_tokens` by the
context shift (server.cpp lines 2060-2066): positions
`[n_keep + n_discard, size)` are copied `n_discard` places to the left and the
vector is resized to `size - n_discard`. -/
def ctx_shift_cache (cache : List Int) (n_keep n_discard : Nat) : List Int :=
  ((cache.take n_keep) ++ (cache.drop (n_keep + n_discard))).take
    (cache.length - n_discard)

/-- Mirrors `const int n_keep = slot.params.n_keep + add_bos_token`
(server.cpp line 2047); `add_bos` is 1 when the model metadata says to add a
BOS token (the default of `server_context::add_bos_token`) and 0 otherwise. -/
def shift_keep (s : ServerSlot) (add_bos : Int) : Int :=
  s.params.n_keep + add_bos

/-- Mirrors `const int n_discard = slot.params.n_discard ? slot.params.n_discard :
(n_left / 2)` with `n_left = system_tokens.size() + n_past - n_keep`
(server.cpp lines 2048-2049); `/` is C++ truncating division. -/
def shift_discard (s : ServerSlot) (sys_len add_bos : Int) : Int :=
  if s.params.n_discard ≠ 0 then s.params.n_discard
  else Int.tdiv (sys_len + s.n_past - shift_keep s add_bos) 2

/-- The context-shift body of `update_slots` (server.cpp lines 2046-2069),
reached when the shift is enabled: slide of `cache_tokens` starting at
`n_keep + n_discard` only under `cache_prompt`, then `n_past -= n_discard`
and `truncated = true`. -/
def ServerSlot.context_shift (s : ServerSlot) (sys_len add_bos : Int) :
    ServerSlot :=
  { s with
    cache_tokens :=
      if s.params.cache_prompt then
        ctx_shift_cache s.cache_tokens (shift_keep s add_bos).toNat
          (shift_discard s sys_len add_bos).toNat
      else s.cache_tokens
    n_past    := s.n_past - shift_discard s sys_len add_bos
    truncated := true }

/-- The per-slot context-shift step of `update_slots` (server.cpp
lines 2032-2070) including its guards: only for `ga_n == 1`, only for a
processing slot with `system_tokens.size() + n_past >= n_ctx - 1`; when
context shift is disabled the slot is released and an error is sent (the
returned flag records that an error result was emitted). -/
def update_slot_ctx_shift (s : ServerSlot) (sys_len add_bos : Int)
    (ctx_shift_enabled : Bool) : ServerSlot × Bool :=
  if s.ga_n = 1 ∧ s.is_processing = true ∧ sys_len + s.n_past ≥ s.n_ctx - 1 then
    if ctx_shift_enabled then (s.context_shift sys_len add_bos, false)
    else (s.release, true)
  else (s, false)

/-- The prompt-admission step of `update_slots` for one scheduler iteration
(server.cpp lines 2245-2345), for a slot in `PROCESSING_PROMPT` whose prompt
tokens `pt` are available, with `k` the number of prompt tokens the batch has
room for in this iteration:
with `cache_prompt`, `n_past = common_part(cache_tokens, prompt_tokens)`
(line 2252), without it `n_past` stays 0 (line 2183); if the whole prompt is
cached, `n_past` is decremented so at least one token is decoded
(lines 2262-2270); `cache_tokens` is resized to `n_past` (line 2310); then
prompt tokens are batch-added while `n_past` advances, each pushed to
`cache_tokens` under `cache_prompt` (lines 2325-2340). -/
def ServerSlot.prompt_admission (s : ServerSlot) (pt : List Int) (k : Nat) :
    ServerSlot :=
  let n_past0 : Int :=
    if s.params.cache_prompt then (common_part s.cache_tokens pt : Int) else 0
  let n_past1 : Int :=
    if n_past0 = (pt.length : Int) ∧ 0 < n_past0 then n_past0 - 1 else n_past0
  let cache1 := s.cache_tokens.take n_past1.toNat
  let taken := (pt.drop n_past1.toNat).take k
  { s with
    prompt_tokens   := pt
    n_prompt_tokens := (pt.length : Int)
    n_past          := n_past1 + (taken.length : Int)
    cache_tokens    := cache1 ++ (if s.params.cache_prompt then taken else []) }

/-- The speculative-decoding commit of `update_slots` (server.cpp
lines 2546-2574): `ids` is the vector returned by
`gpt_sampler_sample_and_accept_n`, `id` the token sampled just before;
`n_past` and `n_decoded` advance by `ids.size()`; `id` is pushed to
`cache_tokens` followed by `insert(end, ids.begin(), ids.end() - 1)`, i.e.
all accepted tokens but the last. -/
def ServerSlot.spec_commit (s : ServerSlot) (id : Int) (ids : List Int) :
    ServerSlot :=
  { s with
    n_past       := s.n_past + (ids.length : Int)
    n_decoded    := s.n_decoded + (ids.length : Int)
    cache_tokens := s.cache_tokens ++ id :: ids.dropLast }

/-- The `SERVER_TASK_TYPE_SLOT_RESTORE` handler (server.cpp lines 1905-1952)
restricted to the slot: `cache_tokens` is resized to `n_ctx`, overwritten by
`llama_state_seq_load_file` with `token_count` tokens (`restored` models the
loaded sequence; on `nread == 0` it is the empty list after `resize(0)`), and
resized to `token_count`.  No other slot field is written; in particular
`n_past` keeps its previous value. -/
def ServerSlot.slot_restore (s : ServerSlot) (restored : List Int) :
    ServerSlot :=
  { s with cache_tokens := restored }

/-- The `SERVER_TASK_TYPE_SLOT_ERASE` handler (server.cpp lines 1954-1985)
restricted to the slot: `cache_tokens.clear()`, again leaving `n_past`
untouched. -/
def ServerSlot.slot_erase (s : ServerSlot) : ServerSlot :=
  { s with cache_tokens := [] }

/-- The sampling step of `update_slots` (server.cpp lines 2482-2500) as far
as it touches the modelled fields: `n_decoded += 1` (the sampled token itself
reaches the slot via `process_token`, which sets `sampled`). -/
def ServerSlot.sample_step (s : ServerSlot) : ServerSlot :=
  { s with n_decoded := s.n_decoded + 1 }

/-! ## Slot launch (COMPLETION branch of `process_single_task`,
server.cpp lines 1735-1782, and `launch_slot_with_task`,
server.cpp lines 981-1179) -/

/-- Successful slot launch: the COMPLETION branch runs `slot->reset()` and
`slot->id_task = task.id` (lines 1772-1774), then `launch_slot_with_task`
merges the request parameters over the defaults (modelled by the merged
record `p`), disables `cache_prompt` when group attention is on
(lines 1044-1047), and on success sets the state to `PROCESSING_PROMPT` and
clears `prompt_tokens` (lines 1174-1175).  Sampler construction and the
grammar/antiprompt/logit-bias fields are external collaborators and outside
the model. -/
def ServerSlot.launch (s : ServerSlot) (tid : Int) (p : SlotParams) :
    ServerSlot :=
  let p := if s.ga_n ≠ 1 then { p with cache_prompt := false } else p
  { s.reset with
    id_task       := tid
    params        := p
    state         := SlotState.processingPrompt
    prompt_tokens := [] }

/-- Failed slot launch: `launch_slot_with_task` returns false after
`send_error` (invalid prompt, conflicting json_schema and grammar, or sampler
construction failure).  `slot->reset()` and `slot->id_task = task.id` have
already run; the state assignment at line 1174 is never reached, so the slot
stays `IDLE` while carrying the id of the rejected task.  (Which of the
parameter assignments precede the failing check varies with the failure
point; the parameters are left unmodelled here.) -/
def ServerSlot.launch_rejected (s : ServerSlot) (tid : Int) : ServerSlot :=
  { s.reset with id_task := tid }

/-! ## `process_token` stop conditions (server.cpp lines 1307-1346) -/

/-- Mirrors `server_slot::has_budget` (server.cpp lines 244-258).  Returns the slot
with `n_remaining` updated, and the boolean result. -/
def ServerSlot.has_budget (s : ServerSlot) (global_n_predict : Int) :
    ServerSlot × Bool :=
  if s.params.n_predict = -1 ∧ global_n_predict = -1 then (s, true)
  else
    let s :=
      if s.params.n_predict ≠ -1 then
        { s with n_remaining := s.params.n_predict - s.n_decoded }
      else if global_n_predict ≠ -1 then
        { s with n_remaining := global_n_predict - s.n_decoded }
      else { s with n_remaining := -1 }
    (s, decide (s.n_remaining > 0))

/-- The short-circuit guard `slot.n_decoded > 0 && slot.has_next_token` of
the first stop condition (server.cpp line 1307): only when it holds does
`has_budget` run (and write `n_remaining`). -/
def budget_guard (s : ServerSlot) : Bool :=
  decide (s.n_decoded > 0) && s.has_next_token

/-- Guard of the first stop condition (server.cpp line 1307):
`slot.n_decoded > 0 && slot.has_next_token && !slot.has_budget(params)`. -/
def stop_cond_budget (s : ServerSlot) (global_n_predict : Int) : Bool :=
  budget_guard s && !(s.has_budget global_n_predict).2

/-- Guard of the second stop condition (server.cpp line 1315):
`slot.n_decoded >= slot.n_ctx`. -/
def stop_cond_ctx (s : ServerSlot) : Bool :=
  decide (s.n_decoded ≥ s.n_ctx)

/-- Guard of the fourth stop condition (server.cpp line 1332):
`slot.params.n_predict < 1 && slot.n_predict < 1 && slot.ga_n == 1 &&
slot.n_prompt_tokens + slot.n_decoded >= n_ctx_train`. -/
def stop_cond_train (s : ServerSlot) (n_ctx_train : Int) : Bool :=
  decide (s.params.n_predict < 1) && decide (s.n_predict < 1) &&
    decide (s.ga_n = 1) &&
    decide (s.n_prompt_tokens + s.n_decoded ≥ n_ctx_train)

/-- The stop-condition suffix of `process_token` (server.cpp
lines 1306-1346), applied to the slot state left by the text and stop-word
phase of the same call.  `tok_is_eog` is `llama_token_is_eog(model,
result.tok)`.  The four `if` statements run in sequence; the C++
short-circuit in the first guard means `has_budget` (and its write to
`n_remaining`) only runs when `n_decoded > 0 && has_next_token`.  The
returned boolean is `slot.has_next_token` (line 1345). -/
def ServerSlot.check_limits (s0 : ServerSlot)
    (global_n_predict n_ctx_train : Int) (tok_is_eog : Bool) :
    ServerSlot × Bool :=
  let s := if budget_guard s0 then
             (s0.has_budget global_n_predict).1
           else s0
  let s := if stop_cond_budget s0 global_n_predict then
             { s with stopped_limit := true, has_next_token := false }
           else s
  let s := if stop_cond_ctx s0 then
             { s with truncated := true, stopped_limit := true,
                      has_next_token := false }
           else s
  let s := if tok_is_eog then
             { s with stopped_eos := true, has_next_token := false }
           else s
  let s := if stop_cond_train s0 n_ctx_train then
             { s with truncated := true, stopped_limit := true,
                      has_next_token := false }
           else s
  (s, s.has_next_token)

/-! ## Slot selection (`server_context::get_available_slot`,
server.cpp lines 929-979) -/

/-- One iteration of the LRU loop of `get_available_slot` (server.cpp
lines 959-970): the accumulator carries `(ret, t_last)`; processing slots are
skipped and a slot is selected exactly when `slot.t_last_used < t_last`
(strict). -/
def lru_step (acc : Option ServerSlot × Int) (slot : ServerSlot) :
    Option ServerSlot × Int :=
  if slot.is_processing then acc
  else if slot.t_last_used < acc.2 then (some slot, slot.t_last_used)
  else acc

/-- The LRU fallback of `get_available_slot` (server.cpp lines 957-977),
entered whenever the prompt-similarity path selected no slot: starting from
`ret = nullptr` and `t_last = ggml_time_us()` (the current time). -/
def get_available_slot_lru (slots : List ServerSlot) (t_now : Int) :
    Option ServerSlot :=
  (slots.foldl lru_step (none, t_now)).1

/-! ## Result emission of `process_single_task`
(server.cpp lines 1729-1989) -/

/-- Mirrors `server_context::send_error` (server.cpp lines 1400-1410): the emitted
result has `stop = false` and `error = true`. -/
def error_result (tid : Int) : SResult :=
  { id := tid, stop := false, error := true, cancelled := false }

/-- A successful terminal result: `send_final_response` (lines 1449-1497)
and the admin-task success results (METRICS line 1832, SLOT_SAVE line 1893,
SLOT_RESTORE line 1938, SLOT_ERASE line 1966, SET_LORA line 1879) all set
`stop = true` and `error = false`. -/
def stop_result (tid : Int) : SResult :=
  { id := tid, stop := true, error := false, cancelled := false }

/-- The external outcomes a `process_single_task` dispatch depends on:
whether slot lookup/selection found a slot, whether that slot is currently
processing, whether `launch_slot_with_task` succeeded (prompt well-formed,
grammar parsed), and whether `llama_state_seq_load_file` read zero bytes. -/
structure TaskEnv where
  slot_found         : Bool := true
  slot_processing    : Bool := false
  launch_ok          : Bool := true
  restore_nread_zero : Bool := false
deriving DecidableEq, Repr

/-- The results that one dispatch of `server_context::process_single_task`
(server.cpp lines 1729-1989) sends to the result queue for the dispatched
task id, together with a flag recording that the task was deferred instead.
Branch by branch:
COMPLETION defers when no slot is available or the chosen slot is busy
(lines 1755-1764), emits one `send_error` result when the launch is rejected
(inside `launch_slot_with_task`), and otherwise emits nothing yet (results
follow later from `update_slots`);
CANCEL releases the target slot and sends nothing for its own id
(lines 1783-1792);
NEXT_RESPONSE does nothing (lines 1793-1796);
METRICS and SET_LORA always send one `stop = true` result;
SLOT_SAVE / SLOT_RESTORE / SLOT_ERASE send an error for an invalid slot id,
defer when the slot is processing, and otherwise send one result —
`stop = true`, except SLOT_RESTORE with `nread == 0` which sends an error. -/
def process_single_task_results (t : STask) (env : TaskEnv) :
    List SResult × Bool :=
  match t.ttype with
  | STaskType.completion =>
      if !env.slot_found || env.slot_processing then ([], true)
      else if !env.launch_ok then ([error_result t.id], false)
      else ([], false)
  | STaskType.cancel => ([], false)
  | STaskType.next_response => ([], false)
  | STaskType.metrics => ([stop_result t.id], false)
  | STaskType.slot_save =>
      if !env.slot_found then ([error_result t.id], false)
      else if env.slot_processing then ([], true)
      else ([stop_result t.id], false)
  | STaskType.slot_restore =>
      if !env.slot_found then ([error_result t.id], false)
      else if env.slot_processing then ([], true)
      else if env.restore_nread_zero then ([error_result t.id], false)
      else ([stop_result t.id], false)
  | STaskType.slot_erase =>
      if !env.slot_found then ([error_result t.id], false)
      else if env.slot_processing then ([], true)
      else ([stop_result t.id], false)
  | STaskType.set_lora => ([stop_result t.id], false)

/-- The terminal result `update_slots` emits when it releases a completion
slot: every release site is paired with exactly one send — `send_error`
(lines 2050, 2161, 2200, 2209, 2443) or `send_final_response`
(lines 2194, 2515, 2565) / `send_embedding` / `send_rerank`
(lines 2463, 2470). -/
def completion_release_result (tid : Int) (errored : Bool) : SResult :=
  if errored then error_result tid else stop_result tid

/-! ## Slot lifecycle machine -/

/-- The slot constructed by `server_context::init` (server.cpp
lines 783-846): `id = i`, `n_ctx = n_ctx_slot`, `n_predict` from the server
config, group-attention parameters from the config, followed by
`slot.reset()`; all remaining fields keep the member initializers of
`server_slot`. -/
def init_slot (i n_ctx_slot n_predict ga_n ga_w : Int) : ServerSlot :=
  ServerSlot.reset
    { id := i, n_ctx := n_ctx_slot, n_predict := n_predict,
      ga_n := ga_n, ga_w := ga_w }

/-- One scheduler-thread operation on a single slot, with the guards under
which `process_single_task` and `update_slots` apply it. -/
inductive SlotStep : ServerSlot → ServerSlot → Prop
  | launch_ok (s : ServerSlot) (tid : Int) (p : SlotParams) :
      s.state = SlotState.idle → 0 ≤ tid → SlotStep s (s.launch tid p)
  | launch_fail (s : ServerSlot) (tid : Int) :
      s.state = SlotState.idle → 0 ≤ tid → SlotStep s (s.launch_rejected tid)
  | feed_prompt (s : ServerSlot) (pt : List Int) (k : Nat) :
      s.state = SlotState.processingPrompt →
      SlotStep s (s.prompt_admission pt k)
  | finish_prompt (s : ServerSlot) :
      s.state = SlotState.processingPrompt →
      SlotStep s { s with state := SlotState.donePrompt, n_decoded := 0 }
  | begin_gen (s : ServerSlot) :
      s.state = SlotState.donePrompt →
      SlotStep s { s with state := SlotState.generating }
  | gen (s : ServerSlot) (tok : Int) :
      s.state = SlotState.generating → SlotStep s (s.gen_append tok)
  | sample (s : ServerSlot) :
      s.state = SlotState.generating → SlotStep s s.sample_step
  | shift (s : ServerSlot) (sys_len add_bos : Int) :
      s.ga_n = 1 → s.is_processing = true →
      sys_len + s.n_past ≥ s.n_ctx - 1 →
      SlotStep s (s.context_shift sys_len add_bos)
  | spec (s : ServerSlot) (id : Int) (ids : List Int) :
      s.state = SlotState.generating → ids ≠ [] →
      s.params.cache_prompt = true → SlotStep s (s.spec_commit id ids)
  | rel (s : ServerSlot) : SlotStep s s.release
  | restore (s : ServerSlot) (restored : List Int) :
      s.state = SlotState.idle → SlotStep s (s.slot_restore restored)
  | erase (s : ServerSlot) :
      s.state = SlotState.idle → SlotStep s s.slot_erase

/-- Slot states reachable from a freshly initialized slot by scheduler
operations. -/
inductive SlotReachable : ServerSlot → Prop
  | init (i n_ctx_slot n_predict ga_n ga_w : Int) :
      SlotReachable (init_slot i n_ctx_slot n_predict ga_n ga_w)
  | step {s s' : ServerSlot} :
      SlotReachable s → SlotStep s s' → SlotReachable s'

/-- The spec invariant of section 8: with `cache_prompt` set, the local token
mirror of the KV sequence has exactly `n_past` entries. -/
def cache_inv (s : ServerSlot) : Prop :=
  s.params.cache_prompt = true → (s.cache_tokens.length : Int) = s.n_past

instance (s : ServerSlot) : Decidable (cache_inv s) := by
  unfold cache_inv
  infer_instance

/-! ## Concrete states used to instantiate the theorems -/

/-- A freshly initialized slot that accepted task 0 and was then released:
the trace behind the C1 counterexample. -/
def c1_slot : ServerSlot := ((init_slot 0 512 (-1) 1 512).launch 0 {}).release

/-- A freshly initialized idle slot (C2 counterexample: a slot-restore
target). -/
def c2_slot : ServerSlot := init_slot 1 512 (-1) 1 512

/-- A generating slot about to context-shift (C2 witness). -/
def c2w_slot : ServerSlot :=
  { init_slot 0 32 (-1) 1 512 with
    state        := SlotState.generating
    n_past       := 10
    cache_tokens := [0, 1, 2, 3, 4, 5, 6, 7, 8, 9]
    params       := { n_keep := 2, n_discard := 0 } }

/-- A COMPLETION task about to be rejected at launch (C3 counterexample). -/
def c3_task : STask := { id := 0, ttype := STaskType.completion }

/-- The environment of a launch rejection: a free slot was found but
`launch_slot_with_task` failed (for example on an invalid grammar). -/
def c3_env : TaskEnv := { launch_ok := false }

/-- A METRICS task (C3 witness). -/
def c3w_task : STask := { id := 9, ttype := STaskType.metrics }

/-- The environment of a deferred COMPLETION task: no idle slot available
(C3 witness). -/
def c3w_env : TaskEnv := { slot_found := false }

/-- A COMPLETION task deferred for lack of a slot (C3 witness). -/
def c3w_task2 : STask := { id := 4, ttype := STaskType.completion }

/-- A result-queue state with one registered waiter (C4 witness). -/
def c4_r0 : ServerResponse := { waiting := [3], results := [] }

/-- An empty task queue (C5 counterexample). -/
def c5_q0 : ServerQueue := {}

/-- Two tasks with pre-assigned ids, posted in the order 5 then 7
(C5 counterexample). -/
def c5_t5 : STask := { id := 5 }

/-- Second task of the C5 counterexample. -/
def c5_t7 : STask := { id := 7 }

/-- A slot with full occupancy against `n_ctx = 11`, subject to context shift
with the default `n_keep = 0`, `n_discard = 0` (C7 counterexample and
witness). -/
def c7_slot : ServerSlot :=
  { init_slot 0 11 (-1) 1 512 with
    state        := SlotState.generating
    n_past       := 10
    cache_tokens := [1, 2, 3, 4, 5, 6, 7, 8, 9, 10] }

/-- A processing slot, skipped by the LRU scan (C9 witness). -/
def c9_busy : ServerSlot :=
  { init_slot 0 64 (-1) 1 512 with state := SlotState.generating }

/-- First idle slot of the C9 witness pool. -/
def c9_idle1 : ServerSlot := init_slot 1 64 (-1) 1 512

/-- Second idle slot of the C9 witness pool. -/
def c9_idle2 : ServerSlot := init_slot 2 64 (-1) 1 512

/-- A generating slot entering the speculative commit (C10 witness). -/
def c10_slot : ServerSlot :=
  { init_slot 0 64 (-1) 1 512 with
    state        := SlotState.generating
    n_past       := 2
    n_decoded    := 2
    cache_tokens := [7, 8] }

/-! ## Helper lemmas -/

/-- Unfolding the vector `post` one task at a time. -/
theorem server_queue_post_many_cons (q : ServerQueue) (t : STask)
    (ts : List STask) (front : Bool) :
    server_queue_post_many q (t :: ts) front
      = server_queue_post_many (server_queue_post q t front) ts front := rfl

/-- With `front = false` the vector overload of `server_queue::post` appends
the id-assigned tasks at the back in input order. -/
theorem post_many_back (q : ServerQueue) (ts : List STask) :
    (server_queue_post_many q ts false).tasks
      = q.tasks ++ (assign_task_ids q.next_id ts).1 := by
  induction ts generalizing q with
  | nil => simp [server_queue_post_many, assign_task_ids]
  | cons t ts ih =>
      rw [server_queue_post_many_cons, ih]
      by_cases h : t.id = -1 <;>
        simp [server_queue_post, assign_task_ids, h]

/-- With `front = true` the vector overload pushes each task to the front in
turn, leaving the batch at the head of the queue in reverse input order. -/
theorem post_many_front (q : ServerQueue) (ts : List STask) :
    (server_queue_post_many q ts true).tasks
      = (assign_task_ids q.next_id ts).1.reverse ++ q.tasks := by
  induction ts generalizing q with
  | nil => simp [server_queue_post_many, assign_task_ids]
  | cons t ts ih =>
      rw [server_queue_post_many_cons, ih]
      by_cases h : t.id = -1 <;>
        simp [server_queue_post, assign_task_ids, h]

/-! ## C5 -/

/-- C5 (counterexample): posting the vector of tasks with ids 5 and 7 with
`front = true` to an empty queue leaves the head order 7 then 5 — the bulk
post dequeues front-posted tasks in reverse input order, not input order. -/
theorem c5_counterexample :
    (server_queue_post_many c5_q0 [c5_t5, c5_t7] true).tasks.map STask.id
        = [7, 5] ∧
    [(7 : Int), 5] ≠ [5, 7] := by decide

/-- C5 (amended): the bulk `server_queue::post(tasks, front)` assigns missing
ids in input order and inserts under a single lock; with `front = false` the
tasks are appended at the back and are dequeued in input order, while with
`front = true` each task is pushed to the front in turn, so relative to one
another they are dequeued in reverse input order. -/
theorem c5_post_many_order_amended (q : ServerQueue) (ts : List STask) :
    (server_queue_post_many q ts false).tasks
        = q.tasks ++ (assign_task_ids q.next_id ts).1 ∧
    (server_queue_post_many q ts true).tasks
        = (assign_task_ids q.next_id ts).1.reverse ++ q.tasks :=
  ⟨post_many_back q ts, post_many_front q ts⟩

/-! ## C6 -/

/-- C6 (counterexample): with total context 12 and 2 configured slots, `init`
gives each slot `12 / 2 = 6` tokens of context, not `12 / (2 + 1) = 4`. -/
theorem c6_counterexample :
    server_init_n_ctx_slot 12 2 = 6 ∧
    ¬ server_init_n_ctx_slot 12 2 = 12 / (2 + 1) := by decide

/-- C6 (amended): after initialization every slot context budget `n_ctx`
equals the total context divided by the configured slot count `N_slots`.
`load_model` does increment `n_parallel` while the llama context is
created (reserving a sequence for the system prompt) but restores it before
`init` divides. -/
theorem c6_n_ctx_slot_amended (n_ctx n_parallel : Nat) :
    server_init_n_ctx_slot n_ctx n_parallel = n_ctx / n_parallel := by
  simp [server_init_n_ctx_slot, server_restored_n_parallel, server_seq_count]

/-! ## C4 -/

/-- C4: cancelling a task `tid` with a registered waiter first enqueues the
synthetic acknowledgement (`stop = true`, payload `cancelled = true`) — which
reaches the result list because the waiter is still registered at that point
— then removes the waiter registration; afterwards `server_response::send`
discards every further result carrying id `tid` (in particular any
`stop = false` streaming result), leaving the queue unchanged. -/
theorem c4_cancel_ack (r : ServerResponse) (tid : Int)
    (h : tid ∈ r.waiting) :
    (server_cancel_task r tid).results = r.results ++ [cancel_ack tid] ∧
    (cancel_ack tid).stop = true ∧
    (cancel_ack tid).cancelled = true ∧
    tid ∉ (server_cancel_task r tid).waiting ∧
    ∀ res : SResult, res.id = tid →
      server_response_send (server_cancel_task r tid) res
        = server_cancel_task r tid := by
  have hsend : server_response_send r (cancel_ack tid)
      = { r with results := r.results ++ [cancel_ack tid] } := by
    simp [server_response_send, cancel_ack, h]
  refine ⟨?_, rfl, rfl, ?_, ?_⟩
  · simp [server_cancel_task, hsend, server_response_remove_waiting]
  · simp [server_cancel_task, hsend, server_response_remove_waiting,
      List.mem_filter]
  · intro res hres
    have hmem : res.id ∉ (server_cancel_task r tid).waiting := by
      simp [server_cancel_task, hsend, server_response_remove_waiting,
        List.mem_filter, hres]
    simp [server_response_send, hmem]

/-- C4 (witness): the cancellation mechanism evaluated on a queue with the
single registered waiter 3. -/
theorem c4_witness :
    (3 : Int) ∈ c4_r0.waiting ∧
    (server_cancel_task c4_r0 3).results = c4_r0.results ++ [cancel_ack 3] ∧
    (3 : Int) ∉ (server_cancel_task c4_r0 3).waiting :=
  ⟨by decide, (c4_cancel_ack c4_r0 3 (by decide)).1,
   (c4_cancel_ack c4_r0 3 (by decide)).2.2.2.1⟩

/-! ## C10 -/

/-- C10: under the precondition that `gpt_sampler_sample_and_accept_n`
returned a non-empty vector (its documented contract, sampling.h line 77:
"returns at least 1 token"), the speculative commit appends the verified
token plus all accepted tokens except the last, growing `cache_tokens` by
exactly `ids.size()` entries, and advances `n_past` and `n_decoded` by
`ids.size()` each; the access `ids.end() - 1` is well-defined exactly under
this precondition. -/
theorem c10_spec_commit (s : ServerSlot) (id : Int) (ids : List Int)
    (h : ids ≠ []) :
    (s.spec_commit id ids).cache_tokens
        = s.cache_tokens ++ id :: ids.dropLast ∧
    ((s.spec_commit id ids).cache_tokens.length : Int)
        = (s.cache_tokens.length : Int) + (ids.length : Int) ∧
    (s.spec_commit id ids).n_past = s.n_past + (ids.length : Int) ∧
    (s.spec_commit id ids).n_decoded = s.n_decoded + (ids.length : Int) := by
  have hl : 0 < ids.length := List.length_pos.mpr h
  refine ⟨rfl, ?_, rfl, rfl⟩
  simp only [ServerSlot.spec_commit, List.length_append, List.length_cons,
    List.length_dropLast]
  omega

/-- C10 (witness): the speculative commit evaluated on a concrete generating
slot with two accepted tokens. -/
theorem c10_witness :
    ((c10_slot.spec_commit 9 [3, 4]).cache_tokens.length : Int)
        = (c10_slot.cache_tokens.length : Int) + (([3, 4] : List Int).length : Int) ∧
    (c10_slot.spec_commit 9 [3, 4]).n_past
        = c10_slot.n_past + (([3, 4] : List Int).length : Int) :=
  ⟨(c10_spec_commit c10_slot 9 [3, 4] (by decide)).2.1,
   (c10_spec_commit c10_slot 9 [3, 4] (by decide)).2.2.1⟩

/-! ## C3 -/

/-- C3 (counterexample): a COMPLETION task rejected at launch (id 0, free
slot found, `launch_slot_with_task` failed) has its outcome reported through
`send_error`, which emits one result with `stop = false, error = true` — so
the result queue delivers zero `stop = true` results for this posted task id,
refuting the claim that every posted id receives exactly one. -/
theorem c3_counterexample :
    (process_single_task_results c3_task c3_env).1.length = 1 ∧
    (process_single_task_results c3_task c3_env).2 = false ∧
    ((process_single_task_results c3_task c3_env).1.filter
        (fun r => r.stop)).length = 0 := by decide

/-- C3 (amended): one dispatch of `process_single_task` emits at most one
result for the dispatched id, every emitted result carries that id and is
terminal — `stop = true` with `error = false` on success, or `stop = false`
with `error = true` via `send_error` on rejection — and a deferred dispatch
emits nothing; the internal NEXT_RESPONSE and CANCEL marker tasks emit no
result for their own id; and the single result `update_slots` emits when
releasing a completion slot carries that task id and is terminal in the same
sense. -/
theorem c3_terminal_results_amended (t : STask) (env : TaskEnv) :
    ((process_single_task_results t env).2 = true →
        (process_single_task_results t env).1 = []) ∧
    (∀ r ∈ (process_single_task_results t env).1, r.id = t.id) ∧
    (process_single_task_results t env).1.length ≤ 1 ∧
    (∀ r ∈ (process_single_task_results t env).1,
        (r.stop = true ∧ r.error = false) ∨
        (r.stop = false ∧ r.error = true)) ∧
    (t.ttype = STaskType.next_response ∨ t.ttype = STaskType.cancel →
        (process_single_task_results t env).1 = []) ∧
    (∀ (tid : Int) (e : Bool),
        (completion_release_result tid e).id = tid ∧
        ((completion_release_result tid e).stop = true ∧
            (completion_release_result tid e).error = false ∨
         (completion_release_result tid e).stop = false ∧
            (completion_release_result tid e).error = true)) := by
  obtain ⟨sf, sp, lo, rz⟩ := env
  obtain ⟨tid, tgt, tt⟩ := t
  cases tt <;> cases sf <;> cases sp <;> cases lo <;> cases rz <;>
    simp [process_single_task_results, error_result, stop_result,
      completion_release_result]

/-- C3 (witness): a COMPLETION task that finds no idle slot is deferred and
emits no result. -/
theorem c3_witness :
    (process_single_task_results c3w_task2 c3w_env).2 = true ∧
    (process_single_task_results c3w_task2 c3w_env).1 = [] :=
  ⟨by decide, (c3_terminal_results_amended c3w_task2 c3w_env).1 (by decide)⟩

/-! ## C7 -/

/-- C7 (counterexample): `c7_slot` satisfies the shift guard
(`ga_n = 1`, processing, `0 + n_past = 10 ≥ n_ctx - 1 = 10`) with request
parameters `n_keep = 0`, `n_discard = 0` and a BOS-adding model
(`add_bos_token = 1`).  The code discards
`(0 + 10 - (0 + 1)) / 2 = 4` tokens and leaves `n_past = 6`, while the
claimed formula — `n_keep` taken as the bare request parameter — predicts
`n_discard = (0 + 10 - 0) / 2 = 5` and `n_past = 5`. -/
theorem c7_counterexample :
    c7_slot.ga_n = 1 ∧ c7_slot.is_processing = true ∧
    (0 : Int) + c7_slot.n_past ≥ c7_slot.n_ctx - 1 ∧
    c7_slot.params.n_discard = 0 ∧
    (update_slot_ctx_shift c7_slot 0 1 true).1.n_past = 6 ∧
    ¬ (update_slot_ctx_shift c7_slot 0 1 true).1.n_past
        = c7_slot.n_past
          - Int.tdiv (0 + c7_slot.n_past - c7_slot.params.n_keep) 2 := by
  decide

/-- C7 (amended): for a processing slot with `ga_n = 1` and
`|system_tokens| + n_past ≥ n_ctx - 1`, with context shift enabled the
scheduler discards `n_discard` tokens starting at position
`n_keep = params.n_keep + add_bos_token` (not the bare request parameter),
where `n_discard` is the request `n_discard` if nonzero and otherwise
`n_left / 2` with `n_left = |system_tokens| + n_past - n_keep`; it slides
`cache_tokens` left by `n_discard` over `[n_keep + n_discard, end)` — only
when `cache_prompt` is set — decrements `n_past` by exactly `n_discard`, and
sets `truncated`; with context shift disabled the slot is released with an
error. -/
theorem c7_ctx_shift_amended (s : ServerSlot) (sys add_bos : Int)
    (hga : s.ga_n = 1) (hproc : s.is_processing = true)
    (hocc : sys + s.n_past ≥ s.n_ctx - 1) :
    (update_slot_ctx_shift s sys add_bos true).1.n_past
        = s.n_past - shift_discard s sys add_bos ∧
    shift_discard s sys add_bos
        = (if s.params.n_discard ≠ 0 then s.params.n_discard
           else Int.tdiv (sys + s.n_past - (s.params.n_keep + add_bos)) 2) ∧
    (update_slot_ctx_shift s sys add_bos true).1.truncated = true ∧
    (s.params.cache_prompt = true →
      (update_slot_ctx_shift s sys add_bos true).1.cache_tokens
        = ctx_shift_cache s.cache_tokens (s.params.n_keep + add_bos).toNat
            (shift_discard s sys add_bos).toNat) ∧
    update_slot_ctx_shift s sys add_bos false = (s.release, true) := by
  have hg : s.ga_n = 1 ∧ s.is_processing = true ∧
      sys + s.n_past ≥ s.n_ctx - 1 := ⟨hga, hproc, hocc⟩
  refine ⟨?_, ?_, ?_, ?_, ?_⟩
  · simp [update_slot_ctx_shift, hg, ServerSlot.context_shift]
  · simp [shift_discard, shift_keep]
  · simp [update_slot_ctx_shift, hg, ServerSlot.context_shift]
  · intro hcp
    simp [update_slot_ctx_shift, hg, ServerSlot.context_shift, hcp,
      shift_keep]
  · simp [update_slot_ctx_shift, hg]

/-- C7 (witness): the amended shift behaviour evaluated on `c7_slot`. -/
theorem c7_witness :
    (update_slot_ctx_shift c7_slot 0 1 true).1.n_past
        = c7_slot.n_past - shift_discard c7_slot 0 1 ∧
    update_slot_ctx_shift c7_slot 0 1 false = (c7_slot.release, true) :=
  ⟨(c7_ctx_shift_amended c7_slot 0 1 rfl (by decide) (by decide)).1,
   (c7_ctx_shift_amended c7_slot 0 1 rfl (by decide) (by decide)).2.2.2.2⟩

/-! ## C2 -/

/-- The longest common prefix is no longer than the first sequence. -/
theorem common_part_le_left (a b : List Int) :
    common_part a b ≤ a.length := by
  induction a generalizing b with
  | nil => cases b <;> simp [common_part]
  | cons x xs ih =>
      cases b with
      | nil => simp [common_part]
      | cons y ys =>
          by_cases h : x = y <;> simp [common_part, h]
          exact ih ys

/-- Length of the slide-and-resize applied to `cache_tokens` by the context
shift, in the regime the shift guard establishes. -/
theorem ctx_shift_cache_length (c : List Int) (k d : Nat)
    (h : k + d ≤ c.length) :
    (ctx_shift_cache c k d).length = c.length - d := by
  simp [ctx_shift_cache]
  omega

/-- C2 (counterexample): a freshly initialized slot has `cache_prompt = true`
and `cache_tokens.size() = n_past = 0`; restoring a saved sequence of two
tokens into it rewrites `cache_tokens` but not `n_past`, so the slot-restore
operation does not preserve the equality. -/
theorem c2_counterexample :
    c2_slot.params.cache_prompt = true ∧
    (c2_slot.cache_tokens.length : Int) = c2_slot.n_past ∧
    ¬ ((c2_slot.slot_restore [11, 22]).cache_tokens.length : Int)
        = (c2_slot.slot_restore [11, 22]).n_past := by decide

/-- C2 (amended): with `cache_prompt = true`, the equality
`cache_tokens.size() = n_past` is preserved by appending the sampled token
during generation, is (re-)established by prompt admission, is preserved by
the context shift (whose guard regime keeps `n_keep + n_discard` within the
current occupancy and both quantities nonnegative) and by the speculative
commit; slot restore however only rewrites `cache_tokens` to the loaded
sequence and leaves `n_past` unchanged, so the equality holds again only
after the next prompt admission. -/
theorem c2_cache_inv_amended :
    (∀ (s : ServerSlot) (tok : Int),
        cache_inv s → cache_inv (s.gen_append tok)) ∧
    (∀ (s : ServerSlot) (pt : List Int) (k : Nat),
        cache_inv (s.prompt_admission pt k)) ∧
    (∀ (s : ServerSlot) (sys add_bos : Int), cache_inv s →
        0 ≤ shift_keep s add_bos →
        0 ≤ shift_discard s sys add_bos →
        shift_keep s add_bos + shift_discard s sys add_bos ≤ s.n_past →
        cache_inv (s.context_shift sys add_bos)) ∧
    (∀ (s : ServerSlot) (id : Int) (ids : List Int), ids ≠ [] →
        cache_inv s → cache_inv (s.spec_commit id ids)) ∧
    (∀ (s : ServerSlot) (restored : List Int),
        (s.slot_restore restored).cache_tokens = restored ∧
        (s.slot_restore restored).n_past = s.n_past) := by
  refine ⟨?_, ?_, ?_, ?_, fun s restored => ⟨rfl, rfl⟩⟩
  · intro s tok hinv hcp
    have hcp' : s.params.cache_prompt = true := hcp
    have h1 := hinv hcp'
    simp [ServerSlot.gen_append, cache_inv, hcp'] at *
    omega
  · intro s pt k hcp
    have hcp' : s.params.cache_prompt = true := hcp
    have h0 : common_part s.cache_tokens pt ≤ s.cache_tokens.length :=
      common_part_le_left s.cache_tokens pt
    show ((s.prompt_admission pt k).cache_tokens.length : Int)
      = (s.prompt_admission pt k).n_past
    simp only [ServerSlot.prompt_admission, hcp', if_true]
    by_cases h1 : (common_part s.cache_tokens pt : Int) = (pt.length : Int)
        ∧ 0 < (common_part s.cache_tokens pt : Int) <;>
      simp [h1, List.length_append, List.length_take, List.length_drop] <;>
      omega
  · intro s sys add_bos hinv hk hd hkd hcp
    have hcp' : s.params.cache_prompt = true := hcp
    have h1 := hinv hcp'
    have hlen : ((shift_keep s add_bos).toNat
        + (shift_discard s sys add_bos).toNat) ≤ s.cache_tokens.length := by
      omega
    show ((s.context_shift sys add_bos).cache_tokens.length : Int)
      = (s.context_shift sys add_bos).n_past
    simp only [ServerSlot.context_shift, hcp', if_true]
    rw [ctx_shift_cache_length _ _ _ hlen]
    omega
  · intro s id ids hne hinv hcp
    have hcp' : s.params.cache_prompt = true := hcp
    have h1 := hinv hcp'
    have hl : 0 < ids.length := List.length_pos.mpr hne
    show ((s.spec_commit id ids).cache_tokens.length : Int)
      = (s.spec_commit id ids).n_past
    simp only [ServerSlot.spec_commit, List.length_append, List.length_cons,
      List.length_dropLast]
    push_cast
    omega

/-- C2 (witness): the context-shift preservation case evaluated on a
generating slot with ten cached tokens, `n_keep = 2`, BOS-adding model. -/
theorem c2_witness :
    cache_inv c2w_slot ∧ cache_inv (c2w_slot.context_shift 0 1) ∧
    ((c2w_slot.context_shift 0 1).cache_tokens.length : Int)
        = (c2w_slot.context_shift 0 1).n_past :=
  ⟨by decide,
   c2_cache_inv_amended.2.2.1 c2w_slot 0 1 (by decide) (by decide)
     (by decide) (by decide),
   by decide⟩

/-! ## C1 -/

/-- C1 (counterexample): launch task 0 on a fresh slot and release it —
a reachable sequence (it is what a completed, cancelled or empty-prompt task
does).  The released slot is `IDLE` yet keeps `id_task = 0`, because
`server_slot::release` only writes `state`; so `state == IDLE` is not
equivalent to `id_task == -1` on reachable states. -/
theorem c1_counterexample :
    SlotReachable c1_slot ∧
    c1_slot.state = SlotState.idle ∧
    c1_slot.id_task = 0 ∧
    ¬ (c1_slot.state = SlotState.idle ↔ c1_slot.id_task = -1) := by
  refine ⟨?_, by decide, by decide, by decide⟩
  exact SlotReachable.step
    (SlotReachable.step (SlotReachable.init 0 512 (-1) 1 512)
      (SlotStep.launch_ok _ 0 {} rfl (by decide)))
    (SlotStep.rel _)

/-- C1 (amended): on every reachable slot state, `id_task == -1` implies
`state == IDLE` (the id stays `-1` only until the first launch, and every
launch happens on an idle slot); the converse fails because
`server_slot::release` returns the slot to `IDLE` without resetting
`id_task`, which keeps the id of the last task. -/
theorem c1_idtask_amended (s : ServerSlot) (hr : SlotReachable s) :
    s.id_task = -1 → s.state = SlotState.idle := by
  induction hr with
  | init i n np g w => intro _; rfl
  | step hr hstep ih =>
      rename_i s s'
      cases hstep with
      | launch_ok tid p hidle htid =>
          intro h
          have h2 : tid = -1 := h
          omega
      | launch_fail tid hidle htid =>
          intro h
          have h2 : tid = -1 := h
          omega
      | feed_prompt pt k hst => exact fun h => ih h
      | finish_prompt hst =>
          intro h
          have h2 := ih h
          rw [hst] at h2
          exact absurd h2 (by decide)
      | begin_gen hst =>
          intro h
          have h2 := ih h
          rw [hst] at h2
          exact absurd h2 (by decide)
      | gen tok hst => exact fun h => ih h
      | sample hst => exact fun h => ih h
      | shift sys add_bos hga hproc hocc => exact fun h => ih h
      | spec id ids hst hne hcp => exact fun h => ih h
      | rel =>
          intro h
          by_cases hp : s.is_processing
          · simp [ServerSlot.release, hp]
          · have h2 : s.state = SlotState.idle := by
              simpa [ServerSlot.is_processing] using hp
            simp [ServerSlot.release, hp, h2]
      | restore restored hst => exact fun h => hst
      | erase hst => exact fun h => hst

/-- C1 (witness): the amended implication evaluated on a freshly initialized
slot, the one reachable state with `id_task = -1`. -/
theorem c1_witness :
    (init_slot 0 512 (-1) 1 512).id_task = -1 ∧
    (init_slot 0 512 (-1) 1 512).state = SlotState.idle :=
  ⟨by decide,
   c1_idtask_amended _ (SlotReachable.init 0 512 (-1) 1 512) (by decide)⟩

/-! ## C9 -/

/-- Once a slot with `t_last_used = -1` is selected, scanning further slots
whose `t_last_used` is also `-1` cannot change the selection: the comparison
is strict. -/
theorem lru_fold_stable (slots : List ServerSlot) (sel : ServerSlot)
    (h : ∀ s ∈ slots, s.t_last_used = -1) :
    slots.foldl lru_step (some sel, -1) = (some sel, -1) := by
  induction slots with
  | nil => rfl
  | cons a rest ih =>
      have ha : a.t_last_used = -1 := h a (List.mem_cons_self a rest)
      have hstep : lru_step (some sel, -1) a = (some sel, -1) := by
        simp [lru_step, ha]
      rw [List.foldl_cons, hstep]
      exact ih (fun s hs => h s (List.mem_cons_of_mem a hs))

/-- C9: `server_slot::t_last_used` is initialized to `-1` (server.cpp
line 163) and no reachable scheduler operation ever writes it, so on every
reachable slot it still equals `-1`; consequently, whenever the
prompt-similarity path selects no slot, the LRU fallback of
`get_available_slot` returns the first non-processing slot of the slots
vector (the current time passed as initial `t_last` is nonnegative, every
idle slot compares `-1 < t_last` only against the initial value, and ties at
`-1` are never replaced because the comparison is strict) — slot selection is
deterministic in slot index, not in recency of use. -/
theorem c9_lru_slot_selection :
    (∀ s : ServerSlot, SlotReachable s → s.t_last_used = -1) ∧
    (∀ (slots : List ServerSlot) (t_now : Int),
        (∀ s ∈ slots, s.t_last_used = -1) → 0 ≤ t_now →
        get_available_slot_lru slots t_now
          = slots.find? (fun s => !s.is_processing)) := by
  constructor
  · intro s hr
    induction hr with
    | init i n np g w => rfl
    | step hr hstep ih =>
        rename_i s s'
        cases hstep with
        | launch_ok tid p hidle htid => exact ih
        | launch_fail tid hidle htid => exact ih
        | feed_prompt pt k hst => exact ih
        | finish_prompt hst => exact ih
        | begin_gen hst => exact ih
        | gen tok hst => exact ih
        | sample hst => exact ih
        | shift sys add_bos hga hproc hocc => exact ih
        | spec id ids hst hne hcp => exact ih
        | rel =>
            by_cases hp : s.is_processing <;>
              simp [ServerSlot.release, hp, ih]
        | restore restored hst => exact ih
        | erase hst => exact ih
  · intro slots t_now h h0
    induction slots with
    | nil => rfl
    | cons a rest ih =>
        have ha : a.t_last_used = -1 := h a (List.mem_cons_self a rest)
        have hrest : ∀ s ∈ rest, s.t_last_used = -1 :=
          fun s hs => h s (List.mem_cons_of_mem a hs)
        by_cases hp : a.is_processing
        · have hstep : lru_step (none, t_now) a = (none, t_now) := by
            simp [lru_step, hp]
          have hfind :
              (a :: rest).find? (fun s => !s.is_processing)
                = rest.find? (fun s => !s.is_processing) :=
            List.find?_cons_of_neg _ (by simp [hp])
          rw [get_available_slot_lru, List.foldl_cons, hstep, hfind]
          exact ih hrest
        · have hstep : lru_step (none, t_now) a = (some a, -1) := by
            have h2 : (-1 : Int) < t_now := by omega
            simp [lru_step, hp, ha, h2]
          have hfind :
              (a :: rest).find? (fun s => !s.is_processing) = some a :=
            List.find?_cons_of_pos _ (by simp [hp])
          rw [get_available_slot_lru, List.foldl_cons, hstep, hfind,
            lru_fold_stable rest a hrest]

/-- C9 (witness): the LRU fallback evaluated on a pool of one generating and
two idle slots at time 1000 selects the first idle slot. -/
theorem c9_witness :
    get_available_slot_lru [c9_busy, c9_idle1, c9_idle2] 1000
        = [c9_busy, c9_idle1, c9_idle2].find? (fun s => !s.is_processing) ∧
    [c9_busy, c9_idle1, c9_idle2].find? (fun s => !s.is_processing)
        = some c9_idle1 :=
  ⟨c9_lru_slot_selection.2 [c9_busy, c9_idle1, c9_idle2] 1000 (by decide)
     (by decide),
   by decide⟩

/-! ## C8 -/

/-- Helper: `server_slot::has_budget` only writes `n_remaining`; the stop flags and
`has_next_token` pass through unchanged. -/
theorem has_budget_preserves (s : ServerSlot) (g : Int) :
    (s.has_budget g).1.has_next_token = s.has_next_token ∧
    (s.has_budget g).1.stopped_limit = s.stopped_limit ∧
    (s.has_budget g).1.stopped_eos = s.stopped_eos ∧
    (s.has_budget g).1.truncated = s.truncated := by
  simp only [ServerSlot.has_budget]
  split_ifs <;> simp

/-- C8: the stop-condition phase of `process_token` applies its four
conditions in source order on the incoming slot state and returns the final
`has_next_token`.  Equationally: the budget condition (guarded by
`n_decoded > 0` and the incoming `has_next_token`) sets `stopped_limit`; the
slot-context condition `n_decoded >= n_ctx` sets `truncated` and
`stopped_limit`; an EOG token sets `stopped_eos`; the training-context
condition — which fires only when both the request `n_predict` and the
server `n_predict` are unset (below 1) and `ga_n == 1` and
`n_prompt_tokens + n_decoded` reaches `n_ctx_train` — sets `truncated` and
`stopped_limit`; each of the four clears `has_next_token`, and the returned
boolean is exactly the final `has_next_token`. -/
theorem c8_process_token_stop_order (s : ServerSlot) (g T : Int)
    (eog : Bool) :
    (s.check_limits g T eog).2 = (s.check_limits g T eog).1.has_next_token ∧
    (s.check_limits g T eog).1.has_next_token
      = (s.has_next_token && !stop_cond_budget s g && !stop_cond_ctx s &&
         !eog && !stop_cond_train s T) ∧
    (s.check_limits g T eog).1.stopped_limit
      = (s.stopped_limit || stop_cond_budget s g || stop_cond_ctx s ||
         stop_cond_train s T) ∧
    (s.check_limits g T eog).1.truncated
      = (s.truncated || stop_cond_ctx s || stop_cond_train s T) ∧
    (s.check_limits g T eog).1.stopped_eos = (s.stopped_eos || eog) := by
  obtain ⟨hb1, hb2, hb3, hb4⟩ := has_budget_preserves s g
  refine ⟨rfl, ?_, ?_, ?_, ?_⟩ <;>
    cases hg : budget_guard s <;>
    cases hcb : stop_cond_budget s g <;>
    cases hcc : stop_cond_ctx s <;>
    cases he : eog <;>
    cases hct : stop_cond_train s T <;>
      simp [ServerSlot.check_limits, hg, hcb, hcc, he, hct,
        hb1, hb2, hb3, hb4]

end PrimaServer
